import Mathlib

/-!
Verification development for the video-automation-processor repository.

The pipeline code is shallowly embedded: Python functions become Lean
functions, external effects (the yt-dlp subprocess, the R2 upload calls, the
OpenAI call, the Notion PATCH request, the webhook POST) become explicit
outcome values passed to the embedded control flow, and the transient
workspace directory becomes a boolean component of the returned state.

Sources embedded:
  * `src/main.py`                       — CLI exit-code decision, signal handler
  * `src/process_task.py`               — `VideoProcessor` (task id, AI content,
                                          fallback content, webhook payloads)
  * `src/src/notion_video_processor.py` — `NotionVideoProcessor` (init/env
                                          validation, R2 upload, AI content,
                                          Notion update with retry decorator,
                                          `process()` control flow and cleanup)

Status strings are kept verbatim from the source: "處理中" = in progress,
"完成" = completed, "部分完成" = partially completed, "失敗" = failed.
-/

namespace VideoAutomation

/-! ### Identifier generator — `process_task.py`, `VideoProcessor._generate_task_id`

`combined = f"{self.task_name}_{self.video_url}_{datetime.now().isoformat()}"`
`return hashlib.md5(combined.encode()).hexdigest()[:12]`

The MD5 digest is abstracted as a `digest : String → String` parameter; the
timestamp is the rendered `isoformat()` string. -/

def taskIdInput (taskName videoUrl timestamp : String) : String :=
  taskName ++ "_" ++ videoUrl ++ "_" ++ timestamp

def generateTaskId (digest : String → String) (taskName videoUrl timestamp : String) : String :=
  (digest (taskIdInput taskName videoUrl timestamp)).take 12

/-! ### CLI boundary — `src/main.py` -/

/-- Embeds the result-analysis block of `main()` (lines 392-451): the exit code
chosen from the status string found in the processor's returned record. -/
def statusExitCode (status : String) : Nat :=
  if status = "完成" then 0
  else if status = "部分完成" then 2
  else if status = "失敗" then 1
  else 3

/-- The distinct ways `main()` can conclude, per `src/main.py`. -/
inductive MainOutcome where
  | interrupted                -- KeyboardInterrupt caught (lines 366-368, 472-474)
  | depsMissing                -- dependency check failed (line 318-320)
  | envInvalid                 -- environment validation failed (line 336-339)
  | importFailed               -- processor module import failed (lines 349-356)
  | processorRaised            -- processor init/run raised (lines 369-373)
  | unexpectedError            -- outer catch-all (lines 476-481)
  | result (status : String)   -- processor returned a record with this status
deriving DecidableEq

def mainExitCode : MainOutcome → Nat
  | .interrupted => 130
  | .depsMissing => 1
  | .envInvalid => 1
  | .importFailed => 1
  | .processorRaised => 1
  | .unexpectedError => 1
  | .result status => statusExitCode status

/-- Embeds `signal_handler` (`src/main.py` lines 94-99): `sys.exit(130)`. -/
def signalHandlerExitCode : Nat := 130

/-! ### Task record — `src/src/notion_video_processor.py`, dataclass `NotionTask` -/

structure NotionTask where
  notion_page_id : String
  task_name : String
  person_in_charge : String
  videographer : String
  original_link : String
  status : String := "處理中"
  processed_video_url : Option String := none
  processed_thumbnail_url : Option String := none
  ai_title_suggestions : List String := []
  ai_content_summary : Option String := none
  ai_tag_suggestions : List String := []
  task_id : String := ""
  error_message : Option String := none
deriving DecidableEq

/-- Embeds `NotionTask.__post_init__`: `task_id = f"task_{timestamp}_{md5(f"{original_link}_{timestamp}")[:8]}"`. -/
def notionTaskId (digest : String → String) (originalLink timestamp : String) : String :=
  "task_" ++ timestamp ++ "_" ++ (digest (originalLink ++ "_" ++ timestamp)).take 8

/-! ### Environment and initialization — `NotionVideoProcessor.__init__` -/

/-- The environment variables read by `NotionVideoProcessor`; `none` models an
unset (or empty, hence falsy) variable. -/
structure NvpEnv where
  notion_page_id : Option String
  task_name : Option String
  person_in_charge : Option String
  videographer : Option String
  original_link : Option String
  openai_api_key : Option String
  r2_account_id : Option String
  r2_access_key : Option String
  r2_secret_key : Option String
  r2_bucket : Option String
  notion_api_key : Option String
  notion_database_id : Option String
  r2_custom_domain : Option String
deriving DecidableEq

/-- Embeds the `required_vars` scan of `_setup_task_from_env` (lines 74-78), in
source order. -/
def missingRequiredVars (env : NvpEnv) : List String :=
  (if env.notion_page_id.isNone then ["NOTION_PAGE_ID"] else []) ++
  (if env.task_name.isNone then ["TASK_NAME"] else []) ++
  (if env.person_in_charge.isNone then ["PERSON_IN_CHARGE"] else []) ++
  (if env.videographer.isNone then ["VIDEOGRAPHER"] else []) ++
  (if env.original_link.isNone then ["ORIGINAL_LINK"] else [])

/-- Configuration state of a successfully initialized `NotionVideoProcessor`. -/
structure NvpConfig where
  task : NotionTask
  r2_enabled : Bool
  notion_enabled : Bool
  r2_custom_domain : Option String
  r2_account_id : String
  r2_bucket : String
deriving DecidableEq

/-- Embeds `NotionVideoProcessor.__init__` together with `_setup_task_from_env`
and `_setup_clients`.  The returned `Bool` is the state of the temporary
workspace directory when `__init__` returns or raises: `tempfile.mkdtemp` runs
FIRST (line 67), so the directory exists on every path out of `__init__`,
including the `ValueError` raised for missing required environment variables
(line 80) and the `ValueError` raised for a missing `OPENAI_API_KEY` (line 97);
`__init__` has no cleanup handler.  `r2InitFails` models the `boto3.client`
constructor raising (lines 120-133), which is caught and merely disables R2. -/
def initNvp (digest : String → String) (timestamp : String) (env : NvpEnv)
    (r2InitFails : Bool) : Except String NvpConfig × Bool :=
  match missingRequiredVars env with
  | m :: ms =>
      (Except.error ("❌ 缺少必要的環境變數: " ++ String.intercalate ", " (m :: ms)), true)
  | [] =>
      match env.openai_api_key with
      | none => (Except.error "❌ 缺少 OPENAI_API_KEY 環境變數", true)
      | some _ =>
          let r2Complete := env.r2_account_id.isSome && env.r2_access_key.isSome
            && env.r2_secret_key.isSome && env.r2_bucket.isSome
          let link := env.original_link.getD ""
          let cfg : NvpConfig :=
            { task :=
                { notion_page_id := env.notion_page_id.getD ""
                  task_name := env.task_name.getD ""
                  person_in_charge := env.person_in_charge.getD ""
                  videographer := env.videographer.getD ""
                  original_link := link
                  task_id := notionTaskId digest link timestamp }
              r2_enabled := r2Complete && !r2InitFails
              notion_enabled := env.notion_api_key.isSome && env.notion_database_id.isSome
              r2_custom_domain := env.r2_custom_domain
              r2_account_id := env.r2_account_id.getD ""
              r2_bucket := env.r2_bucket.getD "" }
          (Except.ok cfg, true)

/-- True exactly when initialization raised instead of producing a processor. -/
def initAborted : Except String NvpConfig → Bool
  | .error _ => true
  | .ok _ => false

/-! ### Artifact publication — `NotionVideoProcessor._upload_to_r2` -/

/-- Embeds `Path(local_path).suffix` for the paths this pipeline produces. -/
def pathSuffix (p : String) : String :=
  let name := (p.splitOn "/").getLastD ""
  match name.splitOn "." with
  | [] => ""
  | [_] => ""
  | first :: rest => if first = "" && rest.length = 1 then "" else "." ++ rest.getLastD ""

/-- Embeds the `content_type_map` lookup of `_upload_to_r2` (lines 203-211). -/
def contentTypeFor (ext : String) : String :=
  if ext = ".mp4" then "video/mp4"
  else if ext = ".webm" then "video/webm"
  else if ext = ".jpg" then "image/jpeg"
  else if ext = ".jpeg" then "image/jpeg"
  else if ext = ".png" then "image/png"
  else if ext = ".webp" then "image/webp"
  else "application/octet-stream"

/-- Outcome of one `upload_file` call against the object store. -/
inductive UploadOutcome where
  | ok
  | err (e : String)
deriving DecidableEq

/-- Embeds `_upload_to_r2` (lines 192-239).  When R2 is disabled the file is
kept local and the marker `local://{local_path}` is returned; on an upload
exception the except-branch returns `upload_failed://{local_path}`.  In no
branch is the original source URL returned, and no exception escapes. -/
def uploadToR2 (cfg : NvpConfig) (outcome : UploadOutcome)
    (localPath fileType datePath : String) : String :=
  if !cfg.r2_enabled then "local://" ++ localPath
  else
    let ext := pathSuffix localPath
    let r2Key := fileType ++ "/" ++ datePath ++ "/" ++ cfg.task.task_id ++ ext
    let _contentType := contentTypeFor ext.toLower
    match outcome with
    | .ok =>
        match cfg.r2_custom_domain with
        | some d => "https://" ++ d ++ "/" ++ r2Key
        | none => "https://pub-" ++ cfg.r2_account_id ++ ".r2.dev/" ++ r2Key
    | .err _ => "upload_failed://" ++ localPath

/-! ### Content synthesis — `NotionVideoProcessor._generate_ai_content` -/

/-- The parsed fields read out of the model's JSON answer, through
`ai_data.get("AI標題建議", [])`, `ai_data.get("內容摘要", "")`,
`ai_data.get("標籤建議", [])` — the `.get` defaults are already applied. -/
structure NvpAiResponse where
  titles : List String
  summary : String
  tags : List String
deriving DecidableEq

/-- Outcome of the OpenAI call inside `_generate_ai_content`. -/
inductive NvpAiOutcome where
  | ok (r : NvpAiResponse)   -- call returned, JSON parsed
  | jsonError                -- `json.loads` raised `JSONDecodeError`
  | apiError (e : String)    -- the call itself raised
deriving DecidableEq

/-- Embeds `_generate_ai_content` (lines 241-310).  Success trims the fields
(`[:5]`, `[:500]`, `[:10]`); a JSON error sets `error_message` to
"AI 回應格式錯誤"; any other exception sets it to "AI 服務錯誤: {e}".  In the
two failure branches the title/summary/tag fields are left untouched, and the
function never raises to its caller. -/
def nvpGenerateAiContent (t : NotionTask) (o : NvpAiOutcome) : NotionTask :=
  match o with
  | .ok r =>
      { t with ai_title_suggestions := r.titles.take 5
               ai_content_summary := some (r.summary.take 500)
               ai_tag_suggestions := r.tags.take 10 }
  | .jsonError => { t with error_message := some "AI 回應格式錯誤" }
  | .apiError e => { t with error_message := some ("AI 服務錯誤: " ++ e) }

/-! ### Notion page update — `NotionVideoProcessor._update_notion_page` -/

/-- Outcome of one attempted `requests.patch` against the Notion API. -/
inductive NotionAttempt where
  | ok200                 -- HTTP 200
  | badStatus (code : Nat) -- any non-200 status (e.g. 429 rate limit)
  | raised (e : String)   -- the request raised (e.g. timeout)
deriving DecidableEq

/-- Embeds the `_update_notion_page` body (lines 313-379) for one attempt.
When Notion is not enabled the function returns `False` before the `try`
block.  Inside the function, HTTP 200 returns `True`, any other status code
returns `False`, and the blanket `except Exception` catches every raised
error and returns `False` — no exception ever escapes the body. -/
def updateNotionAttempt (enabled : Bool) (a : NotionAttempt) : Bool :=
  if !enabled then false
  else
    match a with
    | .ok200 => true
    | .badStatus _ => false
    | .raised _ => false

/-- Embeds the tenacity `@retry` combinator: the wrapped call is re-invoked
(consuming the next attempt outcome) only while it RAISES, for at most
`fuel + 1` attempts; a normal return — `ok` here — ends the loop at once. -/
def runWithRetry {α E β : Type} (body : α → Except E β) :
    Nat → α → List α → Except E β
  | 0, a, _ => body a
  | fuel + 1, a, rest =>
      match body a with
      | .ok b => .ok b
      | .error e =>
          match rest with
          | [] => .error e
          | a2 :: rest2 => runWithRetry body fuel a2 rest2

/-- Embeds `@retry(stop=stop_after_attempt(3), ...)` applied to
`_update_notion_page`: up to 3 attempts, but the body wraps every attempt
outcome in a normal (non-raising) return. -/
def updateNotionPageWithRetry (enabled : Bool) (first : NotionAttempt)
    (rest : List NotionAttempt) : Except String Bool :=
  runWithRetry (fun a => Except.ok (updateNotionAttempt enabled a)) 2 first rest

/-! ### Acquisition and the pipeline — `NotionVideoProcessor._download_video` / `process` -/

/-- Outcome of `_download_video` (lines 154-190): success yields the located
video path and optional thumbnail path; a yt-dlp exception is re-raised as
`RuntimeError(f"影片下載失敗: {e}")`; a missing media file raises
`FileNotFoundError("❌ 影片檔案未找到，下載可能失敗")`.  There is no tolerant
mode and no placeholder branch in the source. -/
inductive DownloadOutcome where
  | ok (videoPath : String) (thumbPath : Option String)
  | extractError (cause : String)
  | noMediaFound
deriving DecidableEq

def downloadFailed : DownloadOutcome → Bool
  | .ok _ _ => false
  | .extractError _ => true
  | .noMediaFound => true

/-- The message of the exception `_download_video` raises, if any. -/
def downloadRaisedMsg : DownloadOutcome → Option String
  | .ok _ _ => none
  | .extractError c => some ("影片下載失敗: " ++ c)
  | .noMediaFound => some "❌ 影片檔案未找到，下載可能失敗"

/-- One run's external-world outcomes, consumed by `process()` in stage order.
`datePath` is the `datetime.now().strftime("%Y/%m/%d")` partition used in R2
keys. -/
structure StageOutcomes where
  download : DownloadOutcome
  uploadVideo : UploadOutcome
  uploadThumb : UploadOutcome
  ai : NvpAiOutcome
  notionFirst : NotionAttempt
  notionRest : List NotionAttempt
  datePath : String
deriving DecidableEq

/-- Steps 2 of `process()` (lines 404-408): record the video URL, and the
thumbnail URL when a thumbnail was downloaded. -/
def nvpUploadStep (cfg : NvpConfig) (o : StageOutcomes) (videoPath : String)
    (thumbPath : Option String) : NotionTask :=
  let t1 := { cfg.task with
    processed_video_url := some (uploadToR2 cfg o.uploadVideo videoPath "videos" o.datePath) }
  match thumbPath with
  | some p => { t1 with
      processed_thumbnail_url := some (uploadToR2 cfg o.uploadThumb p "thumbnails" o.datePath) }
  | none => t1

/-- The task record after steps 2 and 3 of `process()` (upload, then AI). -/
def nvpAfterStages (cfg : NvpConfig) (o : StageOutcomes) (videoPath : String)
    (thumbPath : Option String) : NotionTask :=
  nvpGenerateAiContent (nvpUploadStep cfg o videoPath thumbPath) o.ai

/-- Python truthiness of the `error_message` field, as tested by
`if not self.task.error_message` (line 419): `None` and `""` are falsy. -/
def falsyOptStr : Option String → Bool
  | none => true
  | some s => decide (s = "")

/-- What `process()` leaves behind: the returned task record (via
`asdict(self.task)`) and whether the temporary directory still exists. -/
structure ProcessResult where
  task : NotionTask
  tempDirExists : Bool
deriving DecidableEq

/-- Embeds `NotionVideoProcessor.process` (lines 390-457).  The `try` block
runs download → upload → AI → Notion update; only `_download_video` can raise
(uploads, AI generation and the Notion update all swallow their errors), and
the `except Exception` branch sets status "失敗" and stores the exception
text.  On the no-exception path status becomes "完成" when `error_message` is
falsy and "部分完成" otherwise.  The `finally` block calls `_cleanup()`
(removing the temporary directory) and returns the record, on every path. -/
def nvpProcess (cfg : NvpConfig) (o : StageOutcomes) : ProcessResult :=
  match o.download with
  | .ok videoPath thumbPath =>
      let t := nvpAfterStages cfg o videoPath thumbPath
      let _notionOk := updateNotionPageWithRetry cfg.notion_enabled o.notionFirst o.notionRest
      let t2 := if falsyOptStr t.error_message
        then { t with status := "完成" }
        else { t with status := "部分完成" }
      { task := t2, tempDirExists := false }
  | .extractError c =>
      { task := { cfg.task with
                  status := "失敗"
                  error_message := some ("影片下載失敗: " ++ c) }
        tempDirExists := false }
  | .noMediaFound =>
      { task := { cfg.task with
                  status := "失敗"
                  error_message := some "❌ 影片檔案未找到，下載可能失敗" }
        tempDirExists := false }

/-! ### Content synthesis — `process_task.py`, `VideoProcessor` -/

/-- Parsed AI content dictionary of `process_task.py`; `none` models a missing
key.  Field order and names follow the JSON keys of the prompt (標題建議,
內容摘要, 標籤建議, 目標受眾, 內容分類, 發布建議, 創意要點, SEO關鍵詞). -/
structure PtAiContent where
  titles : Option (List String)
  summary : Option String
  tags : Option (List String)
  audience : Option String
  category : Option String := none
  publishBestTime : Option String := none
  publishPlatforms : Option (List String) := none
  creativePoints : Option String := none
  seoKeywords : Option (List String) := none
deriving DecidableEq

/-- Embeds Python `str(tag).startswith('#')` — true when the first character
is `#`. -/
def startsWithChar (c : Char) (t : String) : Bool :=
  t.data.head? == some c

/-- Embeds `VideoProcessor._validate_ai_content` (lines 387-410): the four
required keys must be present, every title must have at most 30 characters,
and every tag must begin with `#`. -/
def validateAiContent (c : PtAiContent) : Bool :=
  c.titles.isSome && c.summary.isSome && c.tags.isSome && c.audience.isSome
    && (c.titles.getD []).all (fun t => decide (t.length ≤ 30))
    && (c.tags.getD []).all (fun t => startsWithChar '#' t)

/-- Embeds `VideoProcessor._use_fallback_content` (lines 412-430): content
derived from the task name alone by string templating. -/
def useFallbackContent (taskName : String) : PtAiContent :=
  { titles := some [taskName, taskName ++ " - 精彩內容", "必看！" ++ taskName ++ "重點整理"]
    summary := some (taskName ++ "的精彩內容，值得一看")
    tags := some ["#短影音", "#精彩", "#必看", "#分享", "#推薦"]
    audience := some "一般觀眾"
    category := some "生活"
    publishBestTime := some "晚上8-10點"
    publishPlatforms := some ["YouTube Shorts", "Instagram Reels"]
    creativePoints := some "內容豐富有趣，適合分享"
    seoKeywords := some ["短影音", "精彩", "分享"] }

/-- Outcome of the OpenAI call in `VideoProcessor.generate_ai_content`. -/
inductive PtAiOutcome where
  | ok (c : PtAiContent)   -- call returned and the JSON parsed
  | badJson                -- `json.loads` raised
  | raised (e : String)    -- the call raised
deriving DecidableEq

/-- Result of `generate_ai_content`: whether the call returned (vs raised),
the Python return value, the content installed on `self.ai_content`, and
whether the fallback generator produced it. -/
structure PtGenResult where
  returnedNormally : Bool
  returnValue : Bool
  content : PtAiContent
  usedFallback : Bool
deriving DecidableEq

/-- Embeds `VideoProcessor.generate_ai_content` (lines 326-385): a parsed
response that passes validation is kept; a failed validation, a JSON error or
a raised call all install the fallback content; every branch returns `True`
and no exception escapes (`return True  # 不讓 AI 失敗阻止整個流程`). -/
def generateAiContent (taskName : String) (o : PtAiOutcome) : PtGenResult :=
  match o with
  | .ok c =>
      if validateAiContent c then ⟨true, true, c, false⟩
      else ⟨true, true, useFallbackContent taskName, true⟩
  | .badJson => ⟨true, true, useFallbackContent taskName, true⟩
  | .raised _ => ⟨true, true, useFallbackContent taskName, true⟩

/-! ### Webhook reporting — `process_task.py`, `VideoProcessor.send_webhook_result` -/

/-- The configuration `send_webhook_result` reads from the processor object. -/
structure PtConfig where
  webhook_url : String      -- os.getenv('N8N_WEBHOOK_URL', '')
  webhook_secret : String   -- os.getenv('N8N_WEBHOOK_SECRET', '')
  test_mode : Bool          -- os.getenv('TEST_MODE', 'false') == 'true'
  task_id : String
  task_name : String
  row_index : String        -- os.getenv('GSHEET_ROW_INDEX', '1')
deriving DecidableEq

/-- Scalar top level of the success payload (lines 476-506).  The nested
`properties` / `content_blocks` / `video_info` / `processing_stats` maps are
not needed by any claim and are elided from the embedding. -/
structure SuccessPayload where
  status : String
  secret : String
  task_id : String
  gsheet_row_index : String
  page_title : String
  processed_time : String
deriving DecidableEq

/-- The failure payload (lines 513-521), complete. -/
structure ErrorPayload where
  status : String
  secret : String
  task_id : String
  gsheet_row_index : String
  task_name : String
  error_message : Option String
  processed_time : String
deriving DecidableEq

inductive WebhookPayload where
  | success (p : SuccessPayload)
  | failure (p : ErrorPayload)
deriving DecidableEq

/-- Embeds `send_webhook_result` (lines 432-530).  Test mode and a missing
webhook URL suppress the POST entirely (`none`).  The success body carries
`status="success"`, the shared secret, the task id, the sheet row index and a
page title (first AI title, else the task name).  The failure body carries
`status="error"`, the secret, the task id, the row index, the task name and
the error message EXACTLY as passed — the source applies no truncation and no
emptiness check to it. -/
def sendWebhookResult (cfg : PtConfig) (success : Bool) (errorMessage : Option String)
    (aiTitles : List String) (time : String) : Option WebhookPayload :=
  if cfg.test_mode then none
  else if cfg.webhook_url = "" then none
  else if success then
    some (.success
      { status := "success"
        secret := cfg.webhook_secret
        task_id := cfg.task_id
        gsheet_row_index := cfg.row_index
        page_title := aiTitles.headD cfg.task_name
        processed_time := time })
  else
    some (.failure
      { status := "error"
        secret := cfg.webhook_secret
        task_id := cfg.task_id
        gsheet_row_index := cfg.row_index
        task_name := cfg.task_name
        error_message := errorMessage
        processed_time := time })

/-! ### Concrete fixtures used by counterexamples and witnesses -/

/-- A fixed stand-in for the MD5 hex digest (any function works: the claims
about identifiers are stated for an arbitrary digest). -/
def digestFixture : String → String := fun _ => "0123456789abcdef0123456789abcdef"

def baseTask : NotionTask :=
  { notion_page_id := "page-1"
    task_name := "Demo"
    person_in_charge := "A"
    videographer := "B"
    original_link := "https://example.com/v/1"
    task_id := "task_x" }

/-- Processor with R2 configured (uploads attempted) and Notion disabled. -/
def cfgR2 : NvpConfig :=
  { task := baseTask
    r2_enabled := true
    notion_enabled := false
    r2_custom_domain := none
    r2_account_id := "acct"
    r2_bucket := "bkt" }

/-- Processor with every optional integration configured. -/
def cfgFull : NvpConfig :=
  { task := baseTask
    r2_enabled := true
    notion_enabled := true
    r2_custom_domain := some "cdn.example.com"
    r2_account_id := "acct"
    r2_bucket := "bkt" }

/-- A run in which the download succeeds but the object store rejects the
video upload; the AI call succeeds. -/
def oC : StageOutcomes :=
  { download := .ok "/tmp/demo.mp4" none
    uploadVideo := .err "storage rejects"
    uploadThumb := .ok
    ai := .ok { titles := ["t"], summary := "s", tags := ["#x"] }
    notionFirst := .ok200
    notionRest := []
    datePath := "2026/10/12" }

/-- A run in which the download itself fails. -/
def oErr : StageOutcomes :=
  { download := .extractError "boom"
    uploadVideo := .ok
    uploadThumb := .ok
    ai := .ok { titles := [], summary := "", tags := [] }
    notionFirst := .ok200
    notionRest := []
    datePath := "2026/10/12" }

/-- An environment in which `ORIGINAL_LINK` is unset and everything else is
configured. -/
def envMissing : NvpEnv :=
  { notion_page_id := some "page-1"
    task_name := some "Demo"
    person_in_charge := some "A"
    videographer := some "B"
    original_link := none
    openai_api_key := some "sk-test"
    r2_account_id := some "acct"
    r2_access_key := some "ak"
    r2_secret_key := some "sk"
    r2_bucket := some "bkt"
    notion_api_key := some "nk"
    notion_database_id := some "db"
    r2_custom_domain := none }

/-- Webhook configuration with delivery enabled. -/
def cfgW : PtConfig :=
  { webhook_url := "https://hooks.example/n8n"
    webhook_secret := "s3cret"
    test_mode := false
    task_id := "abc123def456"
    task_name := "Demo"
    row_index := "7" }

/-- A 501-character error message. -/
def msg501 : String := String.mk (List.replicate 501 'x')

/-- A 24-character task name. -/
def name24 : String := "aaaaaaaaaaaaaaaaaaaaaaaa"

/-! ### Operator signal arriving inside `process()` -/

/-- Embeds `process()` when `signal_handler` fires while `_download_video` is
blocked in yt-dlp (the pipeline's dominant blocking point): `sys.exit(130)`
raises `SystemExit` inside the `try` block; the `except Exception` handler
(line 426) does not catch `SystemExit`, so neither the "失敗" assignment nor
the terminal-status decision runs; the `finally` block (lines 434-457) calls
`_cleanup()` and then executes `return asdict(self.task)`, and a `return`
inside `finally` discards the in-flight exception (Python semantics).
`process()` therefore returns normally, with the record exactly as it was
initialized — status still "處理中" — and the workspace removed. -/
def nvpProcessSignalDuringDownload (cfg : NvpConfig) : ProcessResult :=
  { task := cfg.task, tempDirExists := false }

/-- The CLI outcome of a run whose operator signal arrived during the download
stage: because `process()` returned normally (the `SystemExit` was swallowed
by its `finally` block), neither of `main()`'s `KeyboardInterrupt` handlers
fires and no `SystemExit` propagates; `main()` falls through to the
result-analysis block on the returned record's status. -/
def mainExitOnSignalDuringDownload (cfg : NvpConfig) : Nat :=
  statusExitCode (nvpProcessSignalDuringDownload cfg).task.status

/-! ### Helper lemmas -/

theorem str_append_cancel_left (s a b : String) (h : s ++ a = s ++ b) : a = b := by
  have hd := congrArg String.data h
  rw [String.data_append, String.data_append] at hd
  exact String.ext (List.append_cancel_left hd)

theorem str_append_ne_empty (s t : String) (h : s.length + t.length ≠ 0) : s ++ t ≠ "" := by
  intro heq
  have h2 := congrArg String.length heq
  rw [String.length_append] at h2
  have h3 : ("" : String).length = 0 := rfl
  omega

theorem nvpAfterStages_video_url (cfg : NvpConfig) (o : StageOutcomes) (vp : String)
    (tp : Option String) :
    (nvpAfterStages cfg o vp tp).processed_video_url
      = some (uploadToR2 cfg o.uploadVideo vp "videos" o.datePath) := by
  cases tp <;> cases h : o.ai <;>
    simp [nvpAfterStages, nvpUploadStep, nvpGenerateAiContent, h]

theorem nvpAfterStages_error_message (cfg : NvpConfig) (o : StageOutcomes) (vp : String)
    (tp : Option String) :
    (nvpAfterStages cfg o vp tp).error_message
      = (match o.ai with
        | .ok _ => cfg.task.error_message
        | .jsonError => some "AI 回應格式錯誤"
        | .apiError e => some ("AI 服務錯誤: " ++ e)) := by
  cases tp <;> cases h : o.ai <;>
    simp [nvpAfterStages, nvpUploadStep, nvpGenerateAiContent, h]

theorem nvpAfterStages_falsy (cfg : NvpConfig) (o : StageOutcomes) (vp : String)
    (tp : Option String) (h0 : cfg.task.error_message = none) :
    (falsyOptStr (nvpAfterStages cfg o vp tp).error_message = true
      ↔ (nvpAfterStages cfg o vp tp).error_message = none) := by
  rw [nvpAfterStages_error_message]
  cases h : o.ai with
  | ok r => simp [h0, falsyOptStr]
  | jsonError =>
      have hne : ("AI 回應格式錯誤" : String) ≠ "" := by decide
      simp [falsyOptStr, hne]
  | apiError e =>
      have hne : "AI 服務錯誤: " ++ e ≠ "" := by
        apply str_append_ne_empty
        have : ("AI 服務錯誤: " : String).length = 9 := by decide
        omega
      simp [falsyOptStr, hne]

theorem nvpProcess_ok_status (cfg : NvpConfig) (o : StageOutcomes) (vp : String)
    (tp : Option String) (h : o.download = DownloadOutcome.ok vp tp) :
    (nvpProcess cfg o).task.status = "完成" ∨ (nvpProcess cfg o).task.status = "部分完成" := by
  by_cases hem : falsyOptStr (nvpAfterStages cfg o vp tp).error_message = true
  · left; simp [nvpProcess, h, hem]
  · right; simp [nvpProcess, h, hem]

theorem nvpProcess_ok_video_url (cfg : NvpConfig) (o : StageOutcomes) (vp : String)
    (tp : Option String) (h : o.download = DownloadOutcome.ok vp tp) :
    (nvpProcess cfg o).task.processed_video_url
      = some (uploadToR2 cfg o.uploadVideo vp "videos" o.datePath) := by
  have hv := nvpAfterStages_video_url cfg o vp tp
  by_cases hem : falsyOptStr (nvpAfterStages cfg o vp tp).error_message = true <;>
    simp [nvpProcess, h, hem, hv]

/-! ### Claim theorems -/

/-- Claim C7 is false on the code at the signal-during-`process()` path: an
operator signal delivered while the pipeline is inside `process()` (here, a
fully configured processor blocked in the download stage) is swallowed by the
`return` in `process()`'s `finally` block, so the run comes back with status
"處理中" and the CLI exits with code 3, not 130 — an interrupted run whose
exit code differs from 130. -/
theorem c7_counterexample :
    (nvpProcessSignalDuringDownload cfgFull).task.status = "處理中"
    ∧ mainExitOnSignalDuringDownload cfgFull = 3
    ∧ mainExitOnSignalDuringDownload cfgFull ≠ 130 :=
  ⟨rfl, rfl, by decide⟩

/-- Claim C7 (amended): the CLI process exits with code 0 when the pipeline's
terminal status is completed ("完成"), 1 when it is failed ("失敗"), and 2
when it is partially completed ("部分完成").  An operator signal yields exit
code 130 only when it is observed at `main()`'s level — `signal_handler`'s
`sys.exit(130)` propagating outside `process()`, or a `KeyboardInterrupt`
caught by `main()`'s handlers; a signal arriving while `process()` is
executing a stage is swallowed by the `return` in its `finally` block, the
record keeps its initial status "處理中", and the CLI exits with code 3. -/
theorem c7_exit_codes (cfg : NvpConfig) (h : cfg.task.status = "處理中") :
    mainExitCode (MainOutcome.result "完成") = 0
    ∧ mainExitCode (MainOutcome.result "失敗") = 1
    ∧ mainExitCode (MainOutcome.result "部分完成") = 2
    ∧ mainExitCode MainOutcome.interrupted = 130
    ∧ signalHandlerExitCode = 130
    ∧ mainExitOnSignalDuringDownload cfg = 3 := by
  refine ⟨rfl, rfl, rfl, rfl, rfl, ?_⟩
  show statusExitCode cfg.task.status = 3
  rw [h]
  decide

/-- Witness for C7's amended statement at a fully configured processor, whose
record starts at the dataclass default status "處理中". -/
theorem c7_exit_codes_witness :
    mainExitCode MainOutcome.interrupted = 130
    ∧ mainExitOnSignalDuringDownload cfgFull = 3 :=
  ⟨(c7_exit_codes cfgFull rfl).2.2.2.1, (c7_exit_codes cfgFull rfl).2.2.2.2.2⟩

/-- Claim C10 (confirmed): a status string other than the three documented
terminal statuses makes the CLI exit with code 3, which lies outside the
documented set {0, 1, 2, 130}. -/
theorem c10_unknown_status_exit (s : String)
    (h1 : s ≠ "完成") (h2 : s ≠ "部分完成") (h3 : s ≠ "失敗") :
    mainExitCode (MainOutcome.result s) = 3
    ∧ 3 ∉ ([0, 1, 2, 130] : List Nat) := by
  refine ⟨?_, by decide⟩
  simp [mainExitCode, statusExitCode, h1, h2, h3]

/-- Witness for C10, at the record's initial status "處理中" (in progress),
which `process()` never replaces when an interrupt is swallowed by its
`finally` block. -/
theorem c10_unknown_status_exit_witness :
    mainExitCode (MainOutcome.result "處理中") = 3
    ∧ 3 ∉ ([0, 1, 2, 130] : List Nat) :=
  c10_unknown_status_exit "處理中" (by decide) (by decide) (by decide)

/-- Claim C8 (confirmed): `_generate_task_id` is a pure function of
`(task_name, source_url, timestamp)` — the identifier equals the truncated
digest of the input string built from exactly those three values, so equal
inputs give equal identifiers — and two invocations with distinct timestamps
(same name and URL) hash distinct input strings, so their identifiers differ
up to collision of the truncated digest. -/
theorem c8_task_id_deterministic (digest : String → String) (n u t1 t2 : String)
    (h : t1 ≠ t2) :
    generateTaskId digest n u t1 = (digest (taskIdInput n u t1)).take 12
    ∧ taskIdInput n u t1 ≠ taskIdInput n u t2 := by
  refine ⟨rfl, ?_⟩
  intro heq
  simp only [taskIdInput] at heq
  exact h (str_append_cancel_left (n ++ "_" ++ u ++ "_") t1 t2 heq)

/-- Witness for C8 at a concrete name, URL and two concrete timestamps. -/
theorem c8_task_id_deterministic_witness :
    generateTaskId digestFixture "Demo" "https://example.com/v/1" "2026-10-12T00:00:00"
      = (digestFixture (taskIdInput "Demo" "https://example.com/v/1" "2026-10-12T00:00:00")).take 12
    ∧ taskIdInput "Demo" "https://example.com/v/1" "2026-10-12T00:00:00"
      ≠ taskIdInput "Demo" "https://example.com/v/1" "2026-10-12T00:00:01" :=
  c8_task_id_deterministic digestFixture "Demo" "https://example.com/v/1"
    "2026-10-12T00:00:00" "2026-10-12T00:00:01" (by decide)

/-- Claim C9 is false on the code: with Notion enabled and a page update whose
first two attempts fail transiently (raised timeouts) and whose third would
succeed (HTTP 200), the operation as a whole returns failure (`False`) — the
body's blanket `except` catches the first timeout and returns normally, so the
`@retry` decorator never re-invokes it, even though a bare third attempt would
have succeeded. -/
theorem c9_counterexample :
    updateNotionPageWithRetry true (NotionAttempt.raised "timeout")
        [NotionAttempt.raised "timeout", NotionAttempt.ok200] = Except.ok false
    ∧ updateNotionAttempt true NotionAttempt.ok200 = true :=
  ⟨rfl, rfl⟩

/-- Claim C9 (amended): `_update_notion_page` is wrapped in a 3-attempt
exponential-backoff retry decorator, but its body catches every exception and
returns `False`, so no error — transient or not — ever triggers a retry: the
overall result is always decided by the first attempt alone, and a raised
transient error on that attempt yields overall failure without retrying. -/
theorem c9_no_retry_occurs (enabled : Bool) (a : NotionAttempt)
    (rest : List NotionAttempt) (e : String) :
    updateNotionPageWithRetry enabled a rest = Except.ok (updateNotionAttempt enabled a)
    ∧ updateNotionAttempt enabled (NotionAttempt.raised e) = false := by
  constructor
  · rfl
  · cases enabled <;> rfl

/-- Claim C5 is false on the code: there is no tolerant mode.  Under a fully
configured processor (R2 and Notion both enabled) a failing acquisition yields
terminal status "失敗" with no placeholder media — the record's video URL
stays empty. -/
theorem c5_counterexample :
    (nvpProcess cfgFull oErr).task.status = "失敗"
    ∧ (nvpProcess cfgFull oErr).task.error_message = some "影片下載失敗: boom"
    ∧ (nvpProcess cfgFull oErr).task.processed_video_url = none :=
  ⟨rfl, rfl, rfl⟩

/-- Claim C5 (amended): the implementation has no tolerant mode and never
manufactures a placeholder artifact: for every configuration, an acquisition
failure (a yt-dlp error or no media file found) makes `process()` reach
terminal status "失敗" with the raised message stored in `error_message` and
the media URL left untouched. -/
theorem c5_no_tolerant_mode (cfg : NvpConfig) (o : StageOutcomes) (c : String) :
    (nvpProcess cfg { o with download := DownloadOutcome.extractError c }).task.status = "失敗"
    ∧ (nvpProcess cfg { o with download := DownloadOutcome.extractError c }).task.error_message
        = some ("影片下載失敗: " ++ c)
    ∧ (nvpProcess cfg { o with download := DownloadOutcome.extractError c }).task.processed_video_url
        = cfg.task.processed_video_url
    ∧ (nvpProcess cfg { o with download := DownloadOutcome.noMediaFound }).task.status = "失敗" :=
  ⟨rfl, rfl, rfl, rfl⟩

/-- Claim C1 is false on the code at the required-input-validation path: with
`ORIGINAL_LINK` unset (and everything else configured), `__init__` creates the
temporary workspace via `tempfile.mkdtemp` FIRST and then raises `ValueError`
from `_setup_task_from_env`, so the controller aborts before `process()` can
ever run its `finally` cleanup — and the workspace directory still exists. -/
theorem c1_counterexample :
    (initNvp digestFixture "20260101_000000" envMissing false).2 = true
    ∧ initAborted (initNvp digestFixture "20260101_000000" envMissing false).1 = true
    ∧ (initNvp digestFixture "20260101_000000" envMissing false).1
        = Except.error "❌ 缺少必要的環境變數: ORIGINAL_LINK" :=
  ⟨rfl, rfl, rfl⟩

/-- Claim C1 (amended): on every exit path of `process()` itself (completed,
partially completed, failed) the `finally` block removes the workspace before
the controller returns; but when required-input validation fails, the failure
is raised from initialization — after the workspace directory was already
created — and the directory is not released. -/
theorem c1_workspace_cleanup :
    (∀ (cfg : NvpConfig) (o : StageOutcomes), (nvpProcess cfg o).tempDirExists = false)
    ∧ (∀ (digest : String → String) (ts : String) (env : NvpEnv) (r2f : Bool),
        missingRequiredVars env ≠ [] →
        (initNvp digest ts env r2f).2 = true
        ∧ initAborted (initNvp digest ts env r2f).1 = true) := by
  constructor
  · intro cfg o
    cases h : o.download <;> simp [nvpProcess, h]
  · intro digest ts env r2f hm
    cases h : missingRequiredVars env with
    | nil => exact absurd h hm
    | cons m ms => simp [initNvp, h, initAborted]

/-- Witness for C1's amended statement: a cleanup run of `process()` and the
leaking initialization at the concrete deficient environment. -/
theorem c1_workspace_cleanup_witness :
    (nvpProcess cfgR2 oC).tempDirExists = false
    ∧ (initNvp digestFixture "20260101_000000" envMissing false).2 = true :=
  ⟨c1_workspace_cleanup.1 cfgR2 oC,
   (c1_workspace_cleanup.2 digestFixture "20260101_000000" envMissing false (by decide)).1⟩

/-- Claim C2 is false on the code: when the object store rejects the video
upload, the recorded media URL is the marker `upload_failed:///tmp/demo.mp4`,
not the original source URL — while the pipeline does still reach "完成". -/
theorem c2_counterexample :
    (nvpProcess cfgR2 oC).task.processed_video_url = some "upload_failed:///tmp/demo.mp4"
    ∧ (nvpProcess cfgR2 oC).task.processed_video_url ≠ some cfgR2.task.original_link
    ∧ (nvpProcess cfgR2 oC).task.status = "完成" :=
  ⟨rfl, by decide, rfl⟩

/-- Claim C2 (amended): publication never raises and never fails the pipeline:
after a successful acquisition the run terminates in "完成" or "部分完成" and
the media URL is always set (never null) — but to a marker string, not to the
original source URL: `local://{path}` when storage is unconfigured or failed
to initialize, and `upload_failed://{path}` when the store rejects the video
upload. -/
theorem c2_publication_degrade (cfg : NvpConfig) (o : StageOutcomes)
    (vp : String) (tp : Option String) (e : String) :
    ((nvpProcess cfg { o with download := DownloadOutcome.ok vp tp }).task.status = "完成"
      ∨ (nvpProcess cfg { o with download := DownloadOutcome.ok vp tp }).task.status = "部分完成")
    ∧ (nvpProcess cfg { o with download := DownloadOutcome.ok vp tp }).task.processed_video_url
        = some (uploadToR2 cfg o.uploadVideo vp "videos" o.datePath)
    ∧ (cfg.r2_enabled = false →
        uploadToR2 cfg o.uploadVideo vp "videos" o.datePath = "local://" ++ vp)
    ∧ (cfg.r2_enabled = true → o.uploadVideo = UploadOutcome.err e →
        uploadToR2 cfg o.uploadVideo vp "videos" o.datePath = "upload_failed://" ++ vp) := by
  refine ⟨?_, ?_, ?_, ?_⟩
  · exact nvpProcess_ok_status cfg _ vp tp rfl
  · exact nvpProcess_ok_video_url cfg _ vp tp rfl
  · intro h
    simp [uploadToR2, h]
  · intro h1 h2
    simp [uploadToR2, h1, h2]

/-- Witness for C2's amended statement at a run whose video upload is
rejected by configured storage. -/
theorem c2_publication_degrade_witness :
    ((nvpProcess cfgR2 { oC with download := DownloadOutcome.ok "/tmp/demo.mp4" none }).task.status = "完成"
      ∨ (nvpProcess cfgR2 { oC with download := DownloadOutcome.ok "/tmp/demo.mp4" none }).task.status = "部分完成")
    ∧ uploadToR2 cfgR2 oC.uploadVideo "/tmp/demo.mp4" "videos" oC.datePath
        = "upload_failed://" ++ "/tmp/demo.mp4" :=
  ⟨(c2_publication_degrade cfgR2 oC "/tmp/demo.mp4" none "storage rejects").1,
   (c2_publication_degrade cfgR2 oC "/tmp/demo.mp4" none "storage rejects").2.2.2 rfl rfl⟩

/-- Claim C3 (confirmed): starting from the freshly initialized record (no
`error_message`), the run is "完成" exactly when no stage recorded an error
message; "部分完成" exactly when acquisition succeeded (producing the stage's
real media — the code has no placeholder notion) but a later stage degraded
and set `error_message`; and "失敗" exactly when acquisition failed — which in
this code is also the only stage whose exception reaches `process()`'s
handler, every other stage swallowing its own errors. -/
theorem c3_terminal_status (cfg : NvpConfig) (o : StageOutcomes)
    (h0 : cfg.task.error_message = none) :
    ((nvpProcess cfg o).task.status = "完成" ↔ (nvpProcess cfg o).task.error_message = none)
    ∧ ((nvpProcess cfg o).task.status = "部分完成"
        ↔ (downloadFailed o.download = false ∧ (nvpProcess cfg o).task.error_message ≠ none))
    ∧ ((nvpProcess cfg o).task.status = "失敗" ↔ downloadFailed o.download = true) := by
  have hne1 : ("完成" : String) ≠ "部分完成" := by decide
  have hne2 : ("完成" : String) ≠ "失敗" := by decide
  have hne3 : ("部分完成" : String) ≠ "失敗" := by decide
  cases hd : o.download with
  | ok vp tp =>
      have hinv := nvpAfterStages_falsy cfg o vp tp h0
      by_cases hem : falsyOptStr (nvpAfterStages cfg o vp tp).error_message = true
      · have hemn : (nvpAfterStages cfg o vp tp).error_message = none := hinv.mp hem
        simp [nvpProcess, hd, hemn, falsyOptStr, downloadFailed, hne1, hne2]
      · have hemn : (nvpAfterStages cfg o vp tp).error_message ≠ none :=
          fun hn => hem (hinv.mpr hn)
        simp [nvpProcess, hd, hem, downloadFailed, hemn, hne1.symm, Ne.symm hne3]
  | extractError c =>
      simp [nvpProcess, hd, downloadFailed, hne2.symm, Ne.symm hne3]
  | noMediaFound =>
      simp [nvpProcess, hd, downloadFailed, hne2.symm, Ne.symm hne3]

/-- Witness for C3 at a concrete completed run: the status is "完成" and,
applying the equivalence, no error message was recorded. -/
theorem c3_terminal_status_witness :
    (nvpProcess cfgR2 oC).task.error_message = none :=
  (c3_terminal_status cfgR2 oC rfl).1.mp rfl

/-- Claim C4 is false on the code: with a 24-character task name the fallback
content of `process_task.py` fails its own validation contract (its templated
title "必看！…重點整理" has 31 > 30 characters), and in
`notion_video_processor.py` a failed language-model call records
`error_message` but leaves the title suggestions empty. -/
theorem c4_counterexample :
    validateAiContent (useFallbackContent name24) = false
    ∧ (nvpGenerateAiContent baseTask (NvpAiOutcome.apiError "boom")).ai_title_suggestions = []
    ∧ (nvpGenerateAiContent baseTask (NvpAiOutcome.apiError "boom")).error_message
        = some "AI 服務錯誤: boom"
    ∧ (nvpGenerateAiContent baseTask NvpAiOutcome.jsonError).ai_title_suggestions = [] :=
  ⟨by decide, rfl, rfl, rfl⟩

/-- Claim C4 (amended): the synthesis stage never raises to its caller in
either implementation.  In `process_task.py` every failure mode (raised call,
malformed JSON, failed validation) returns `True` normally and installs
non-empty fallback titles/summary/tags, and that fallback passes the
validation contract exactly when the task name has at most 23 characters; in
`notion_video_processor.py` a failure merely records `error_message` and
leaves the title/summary/tag fields unchanged (hence empty on a fresh
record). -/
theorem c4_synthesis_degrade (name : String) (o : PtAiOutcome) (t : NotionTask)
    (e : String) (h : name.length ≤ 23) :
    (generateAiContent name o).returnedNormally = true
    ∧ (generateAiContent name o).returnValue = true
    ∧ ((useFallbackContent name).titles.getD []).length = 3
    ∧ ((useFallbackContent name).tags.getD []).length = 5
    ∧ (useFallbackContent name).summary.getD "" ≠ ""
    ∧ validateAiContent (useFallbackContent name) = true
    ∧ (nvpGenerateAiContent t (NvpAiOutcome.apiError e)).error_message
        = some ("AI 服務錯誤: " ++ e)
    ∧ (nvpGenerateAiContent t (NvpAiOutcome.apiError e)).ai_title_suggestions
        = t.ai_title_suggestions
    ∧ (nvpGenerateAiContent t NvpAiOutcome.jsonError).error_message = some "AI 回應格式錯誤"
    ∧ (nvpGenerateAiContent t NvpAiOutcome.jsonError).ai_title_suggestions
        = t.ai_title_suggestions := by
  refine ⟨?_, ?_, rfl, rfl, ?_, ?_, rfl, rfl, rfl, rfl⟩
  · cases o with
    | ok c => by_cases hv : validateAiContent c = true <;> simp [generateAiContent, hv]
    | badJson => rfl
    | raised e2 => rfl
  · cases o with
    | ok c => by_cases hv : validateAiContent c = true <;> simp [generateAiContent, hv]
    | badJson => rfl
    | raised e2 => rfl
  · show name ++ "的精彩內容，值得一看" ≠ ""
    apply str_append_ne_empty
    have hlen : ("的精彩內容，值得一看" : String).length = 10 := by decide
    omega
  · have hlenA : (" - 精彩內容" : String).length = 7 := by decide
    have hlenB : ("必看！" : String).length = 3 := by decide
    have hlenC : ("重點整理" : String).length = 4 := by decide
    have hs1 : startsWithChar '#' "#短影音" = true := by decide
    have hs2 : startsWithChar '#' "#精彩" = true := by decide
    have hs3 : startsWithChar '#' "#必看" = true := by decide
    have hs4 : startsWithChar '#' "#分享" = true := by decide
    have hs5 : startsWithChar '#' "#推薦" = true := by decide
    simp only [validateAiContent, useFallbackContent, Option.isSome_some, Option.getD_some,
      List.all_cons, List.all_nil, hs1, hs2, hs3, hs4, hs5, Bool.and_true, Bool.true_and,
      Bool.and_eq_true, decide_eq_true_eq, String.length_append]
    omega

/-- Witness for C4's amended statement at the 4-character task name "Demo". -/
theorem c4_synthesis_degrade_witness :
    (generateAiContent "Demo" (PtAiOutcome.raised "boom")).returnedNormally = true
    ∧ validateAiContent (useFallbackContent "Demo") = true := by
  have h := c4_synthesis_degrade "Demo" (PtAiOutcome.raised "boom") baseTask "boom" (by decide)
  exact ⟨h.1, h.2.2.2.2.2.1⟩

/-- Claim C6 is false on the code: the failure payload carries the error
message exactly as passed — a 501-character message arrives untruncated,
exceeding the documented 500-character limit. -/
theorem c6_counterexample :
    sendWebhookResult cfgW false (some msg501) [] "2026-10-12T00:00:00"
      = some (WebhookPayload.failure
          { status := "error"
            secret := "s3cret"
            task_id := "abc123def456"
            gsheet_row_index := "7"
            task_name := "Demo"
            error_message := some msg501
            processed_time := "2026-10-12T00:00:00" })
    ∧ msg501.length = 501
    ∧ ¬(msg501.length ≤ 500) := by
  have hl : msg501.length = 501 := List.length_replicate 501 'x'
  exact ⟨rfl, hl, by omega⟩

/-- Claim C6 (amended): with a webhook endpoint configured and delivery not
suppressed by test mode, a successful run's body contains `status="success"`,
the configured shared secret and the task id (plus the row index and page
title); a failed run's body contains `status="error"`, the secret, the task
id, the row reference, the task name, and the error message exactly as
supplied by the caller — the source applies no truncation. -/
theorem c6_webhook_payload (cfg : PtConfig) (em : Option String) (titles : List String)
    (time : String) (h1 : cfg.test_mode = false) (h2 : cfg.webhook_url ≠ "") :
    sendWebhookResult cfg true none titles time
      = some (WebhookPayload.success
          { status := "success"
            secret := cfg.webhook_secret
            task_id := cfg.task_id
            gsheet_row_index := cfg.row_index
            page_title := titles.headD cfg.task_name
            processed_time := time })
    ∧ sendWebhookResult cfg false em titles time
      = some (WebhookPayload.failure
          { status := "error"
            secret := cfg.webhook_secret
            task_id := cfg.task_id
            gsheet_row_index := cfg.row_index
            task_name := cfg.task_name
            error_message := em
            processed_time := time }) := by
  constructor <;> simp [sendWebhookResult, h1, h2]

/-- Witness for C6's amended statement at the concrete enabled webhook
configuration. -/
theorem c6_webhook_payload_witness :
    sendWebhookResult cfgW true none ["Great title"] "T1"
      = some (WebhookPayload.success
          { status := "success"
            secret := cfgW.webhook_secret
            task_id := cfgW.task_id
            gsheet_row_index := cfgW.row_index
            page_title := (["Great title"] : List String).headD cfgW.task_name
            processed_time := "T1" }) :=
  (c6_webhook_payload cfgW none ["Great title"] "T1" rfl (by decide)).1

end VideoAutomation
